import Mathlib

/-!
Verification of the synthetic-streaming chunk generator in
`src/providers/openai/chatComplete.ts`.

The TypeScript source is shallowly embedded: the response data model becomes
Lean structures with `Option` for possibly-undefined fields, JavaScript
truthiness checks become explicit (`0`, `""` and `undefined` are falsy;
objects and arrays are always truthy), and `JSON.stringify`'s dropping of
`undefined`-valued keys is folded into the construction of the serialized
objects, so every structure below models the JSON that actually appears on
the wire.  `Date.now()` is impure, so the transform takes the timestamp as
an explicit parameter `now`; it is read once per response, exactly as the
source calls `Date.now()` once while building the shared template.
-/

namespace Gateway

/-- Tool-call function payload of the input message: a name and the
serialized arguments blob (`toolCall.function` in the source). -/
structure ToolCallFunction where
  name : String
  arguments : String
deriving DecidableEq, Repr

/-- One tool call of the input message (`choice.message.tool_calls[k]`). -/
structure ToolCall where
  id : String
  function : ToolCallFunction
deriving DecidableEq, Repr

/-- One content block of the input message.  In the source a block is an
object with a `type` discriminant and optional `text` / `thinking` / `data`
/ `signature` fields; the transform deletes `type` from its local copy and
branches on the truthiness of the payload fields, so `type` is not
modelled. -/
structure ContentBlock where
  text : Option String
  thinking : Option String
  data : Option String
  signature : Option String
deriving DecidableEq, Repr

/-- The input message (`choice.message`). -/
structure Message where
  content : Option String
  content_blocks : Option (List ContentBlock)
  tool_calls : Option (List ToolCall)
deriving DecidableEq, Repr

/-- One choice of the input response.  `groundingMetadata` is opaque
provider metadata passed through verbatim; it is modelled as its serialized
payload.  In JavaScript an object is always truthy, so the source's
`choice.groundingMetadata &&` guard is `Option.isSome` here. -/
structure Choice where
  message : Option Message
  finish_reason : Option String
  groundingMetadata : Option String
deriving DecidableEq, Repr

/-- The input usage statistics (`response.usage`); every field may be
absent.  Token counts are natural numbers. -/
structure Usage where
  prompt_tokens : Option Nat
  completion_tokens : Option Nat
  cache_read_input_tokens : Option Nat
  cache_creation_input_tokens : Option Nat
  num_search_queries : Option Nat
deriving DecidableEq, Repr

/-- The input response (`OpenAIChatCompleteResponse`).  `model` and
`system_fingerprint` may be absent; `citations` is an optional list of
citation strings. -/
structure OpenAIChatCompleteResponse where
  id : String
  model : Option String
  system_fingerprint : Option String
  choices : List Choice
  usage : Option Usage
  citations : Option (List String)
deriving DecidableEq, Repr

/-- JavaScript truthiness of a possibly-undefined string: `undefined` and
`""` are falsy, every other string is truthy. -/
def truthyStr : Option String → Bool
  | some s => s != ""
  | none => false

/-- JavaScript truthiness of a possibly-undefined number applied as an
object-spread guard: `undefined` and `0` are falsy, so the guarded key is
kept only for a present non-zero value (`...(x && \x7b x \x7d)`). -/
def keepTruthy : Option Nat → Option Nat
  | some n => if n = 0 then none else some n
  | none => none

/-- Number of iterations of the slicing loop `for (let i = 0; i <
s.length; i += 500)`: one per started 500-character window, i.e. the
ceiling of the length divided by 500.  The empty string gets zero
iterations, since the loop body never runs. -/
def jsSliceCount (len : Nat) : Nat := (len + 499) / 500

/-- The slicing loop `for (let i = 0; i < s.length; i += 500)
push(s.slice(i, i + 500))`: iteration `k` pushes the window starting at
character `500 * k`, and `s.slice(i, i + 500)` keeps at most 500
characters. -/
def jsSliceChunks (l : List Char) : List (List Char) :=
  (List.range (jsSliceCount l.length)).map fun k => (l.drop (500 * k)).take 500

/-- The slices of a string field, as strings, in original order. -/
def sliceField (s : String) : List String :=
  (jsSliceChunks s.data).map fun l => String.mk l

/-- Modelled from the spec: the provider identifier constant `ANTHROPIC`
imported from `globals`, a file not present in the repository snapshot.
The spec calls it the designated provider family known to report cache
token counts; no claim depends on the constant's exact characters, only on
identity comparisons against it. -/
def ANTHROPIC : String := "anthropic"

/-- Modelled from the spec: the provider identifier constant `OPEN_AI`
imported from `globals`, a file not present in the repository snapshot; it
names the provider on whose behalf the error transform is invoked. -/
def OPEN_AI : String := "openai"

/-- `shouldSendCacheUsage` from the source: cache counts are forwarded only
for the Anthropic provider family and only when at least one of the two
counts is an integer (`Number.isInteger(undefined)` is `false`, and on
natural-number inputs every present value is an integer, `0` included). -/
def shouldSendCacheUsage (provider : String) (u : Usage) : Bool :=
  provider == ANTHROPIC &&
    (u.cache_read_input_tokens.isSome || u.cache_creation_input_tokens.isSome)

/-- The usage object carried by every emitted chunk, in its on-the-wire
form: a `none` field does not appear in the serialized JSON. -/
structure UsageOut where
  completion_tokens : Option Nat
  prompt_tokens : Option Nat
  total_tokens : Option Nat
  cache_read_input_tokens : Option Nat
  cache_creation_input_tokens : Option Nat
  num_search_queries : Option Nat
deriving DecidableEq, Repr

/-- The empty usage object `response.usage || \x7b\x7d` falls back to. -/
def emptyUsage : Usage :=
  { prompt_tokens := none, completion_tokens := none,
    cache_read_input_tokens := none, cache_creation_input_tokens := none,
    num_search_queries := none }

/-- The usage aggregation of the source: `total_tokens` is computed only
when `prompt_tokens` and `completion_tokens` are both truthy; each field of
the template's `usage` object is kept by a truthiness spread guard; the two
cache fields are spread together under `shouldSendCacheUsage`, and a cache
field that is `undefined` disappears again at `JSON.stringify`. -/
def buildUsage (usage : Option Usage) (provider : String) : UsageOut :=
  let u := usage.getD emptyUsage
  let total_tokens : Option Nat :=
    if (keepTruthy u.prompt_tokens).isSome && (keepTruthy u.completion_tokens).isSome
    then some (u.prompt_tokens.getD 0 + u.completion_tokens.getD 0)
    else none
  { completion_tokens := keepTruthy u.completion_tokens
    prompt_tokens := keepTruthy u.prompt_tokens
    total_tokens := keepTruthy total_tokens
    cache_read_input_tokens :=
      if shouldSendCacheUsage provider u then u.cache_read_input_tokens else none
    cache_creation_input_tokens :=
      if shouldSendCacheUsage provider u then u.cache_creation_input_tokens else none
    num_search_queries := keepTruthy u.num_search_queries }

/-- The per-block incremental payload inside `delta.content_blocks[0].delta`:
exactly the keys the source writes there, each absent unless set. -/
structure ContentBlockDelta where
  text : Option String
  thinking : Option String
  data : Option String
  signature : Option String
deriving DecidableEq, Repr

/-- One entry of `delta.content_blocks`. -/
structure ContentBlockChunkOut where
  index : Nat
  delta : ContentBlockDelta
deriving DecidableEq, Repr

/-- The `function` object of a tool-call chunk: the name event sets `name`,
the arguments event omits it. -/
structure ToolCallFunctionChunk where
  name : Option String
  arguments : String
deriving DecidableEq, Repr

/-- One entry of `delta.tool_calls`: the name event carries `id` and
`type`, the arguments event carries neither. -/
structure ToolCallChunkOut where
  index : Nat
  id : Option String
  type : Option String
  function : ToolCallFunctionChunk
deriving DecidableEq, Repr

/-- The `delta` object of an emitted choice.  `content` distinguishes the
explicit `null` of the tool-call name event (`some none`) from an absent
key (`none`) and from a string slice (`some (some s)`). -/
structure Delta where
  role : Option String
  content : Option (Option String)
  content_blocks : Option (List ContentBlockChunkOut)
  tool_calls : Option (List ToolCallChunkOut)
deriving DecidableEq, Repr

/-- The `delta: \x7b\x7d` of the finish event: no keys at all. -/
def emptyDelta : Delta :=
  { role := none, content := none, content_blocks := none, tool_calls := none }

/-- One element of the emitted `choices` array: its index, its delta, and -
only on the finish event - the choice's `finish_reason`; `groundingMetadata`
is attached only on flat-content events whose choice carries it. -/
structure ChoiceDelta where
  index : Nat
  delta : Delta
  finish_reason : Option String
  groundingMetadata : Option String
deriving DecidableEq, Repr

/-- The fields of `streamChunkTemplate` shared by every chunk of one
response. -/
structure StreamChunkTemplate where
  id : String
  created : Nat
  model : String
  system_fingerprint : Option String
  provider : String
  usage : UsageOut
  citations : Option (List String)
deriving DecidableEq, Repr

/-- One emitted chunk: the spread of the shared template plus this event's
`choices` array (`\x7b ...streamChunkTemplate, choices: [...] \x7d`). -/
structure StreamChunk where
  id : String
  object : String
  created : Nat
  model : String
  system_fingerprint : Option String
  provider : String
  usage : UsageOut
  citations : Option (List String)
  choices : List ChoiceDelta
deriving DecidableEq, Repr

/-- Spread the shared template and set this event's `choices`. -/
def mkChunk (t : StreamChunkTemplate) (cd : ChoiceDelta) : StreamChunk :=
  { id := t.id, object := "chat.completion.chunk", created := t.created,
    model := t.model, system_fingerprint := t.system_fingerprint,
    provider := t.provider, usage := t.usage, citations := t.citations,
    choices := [cd] }

/-- `streamChunkTemplate` of the source, built once per response: `model`
falls back to `""` and `system_fingerprint` to `null` by truthiness
(`model || ''`, `system_fingerprint || null`); `citations` is an array, so
its spread guard is mere presence. -/
def streamChunkTemplate (response : OpenAIChatCompleteResponse)
    (provider : String) (now : Nat) : StreamChunkTemplate :=
  { id := response.id
    created := now
    model := if truthyStr response.model then response.model.getD "" else ""
    system_fingerprint :=
      if truthyStr response.system_fingerprint then response.system_fingerprint
      else none
    provider := provider
    usage := buildUsage response.usage provider
    citations := response.citations }

/-- One text-slice event: `delta = \x7b role, content: slice,
content_blocks: [\x7b index, delta: \x7b text: slice \x7d \x7d] \x7d` - the
top-level `content` mirrors the slice for flat-content compatibility. -/
def textSliceChunk (t : StreamChunkTemplate) (index blockIndex : Nat)
    (content : String) : StreamChunk :=
  mkChunk t
    { index := index
      delta :=
        { role := some "assistant", content := some (some content)
          content_blocks := some [{ index := blockIndex, delta :=
            { text := some content, thinking := none, data := none,
              signature := none } }]
          tool_calls := none }
      finish_reason := none, groundingMetadata := none }

/-- One thinking-slice event: like a text slice but under the `thinking`
delta key and with no top-level `content` mirror. -/
def thinkingSliceChunk (t : StreamChunkTemplate) (index blockIndex : Nat)
    (thinking : String) : StreamChunk :=
  mkChunk t
    { index := index
      delta :=
        { role := some "assistant", content := none
          content_blocks := some [{ index := blockIndex, delta :=
            { text := none, thinking := some thinking, data := none,
              signature := none } }]
          tool_calls := none }
      finish_reason := none, groundingMetadata := none }

/-- The trailing event of a thinking block, pushed after its slices: its
block delta holds only the block's `signature` (possibly undefined, in
which case the inner delta serializes as `\x7b\x7d`). -/
def signatureChunk (t : StreamChunkTemplate) (index blockIndex : Nat)
    (signature : Option String) : StreamChunk :=
  mkChunk t
    { index := index
      delta :=
        { role := some "assistant", content := none
          content_blocks := some [{ index := blockIndex, delta :=
            { text := none, thinking := none, data := none,
              signature := signature } }]
          tool_calls := none }
      finish_reason := none, groundingMetadata := none }

/-- One data-slice event, under the `data` delta key. -/
def dataSliceChunk (t : StreamChunkTemplate) (index blockIndex : Nat)
    (data : String) : StreamChunk :=
  mkChunk t
    { index := index
      delta :=
        { role := some "assistant", content := none
          content_blocks := some [{ index := blockIndex, delta :=
            { text := none, thinking := none, data := some data,
              signature := none } }]
          tool_calls := none }
      finish_reason := none, groundingMetadata := none }

/-- The events of one content block: the source branches on the truthiness
of `text`, then `thinking`, then `data`; a block on which all three are
falsy emits nothing.  A text or data block emits one event per 500-character
slice; a thinking block additionally emits the trailing signature event. -/
def contentBlockEvents (t : StreamChunkTemplate) (index blockIndex : Nat)
    (block : ContentBlock) : List StreamChunk :=
  if truthyStr block.text then
    (sliceField (block.text.getD "")).map (textSliceChunk t index blockIndex)
  else if truthyStr block.thinking then
    (sliceField (block.thinking.getD "")).map
      (thinkingSliceChunk t index blockIndex)
      ++ [signatureChunk t index blockIndex block.signature]
  else if truthyStr block.data then
    (sliceField (block.data.getD "")).map (dataSliceChunk t index blockIndex)
  else []

/-- The content-block pass of one choice: runs only when
`choice.message?.content_blocks` is defined (an array is truthy even when
empty). -/
def contentBlocksPart (t : StreamChunkTemplate) (index : Nat)
    (message : Option Message) : List StreamChunk :=
  match message with
  | some m =>
    match m.content_blocks with
    | some blocks =>
      (blocks.enum.map fun p => contentBlockEvents t index p.1 p.2).flatten
    | none => []
  | none => []

/-- The name event of one tool call: `delta.tool_calls` holds the call's
`id`, `type: "function"`, its function name and empty arguments, and the
top-level `content` is an explicit `null`. -/
def toolCallNameChunk (t : StreamChunkTemplate) (index toolCallIndex : Nat)
    (toolCall : ToolCall) : StreamChunk :=
  mkChunk t
    { index := index
      delta :=
        { role := some "assistant", content := some none
          content_blocks := none
          tool_calls := some
            [{ index := toolCallIndex
               id := some toolCall.id
               type := some "function"
               function := { name := some toolCall.function.name,
                             arguments := "" } }] }
      finish_reason := none, groundingMetadata := none }

/-- The arguments event of one tool call: the full arguments blob in a
single event, with no `id`, no `type` and no function name. -/
def toolCallArgumentChunk (t : StreamChunkTemplate) (index toolCallIndex : Nat)
    (toolCall : ToolCall) : StreamChunk :=
  mkChunk t
    { index := index
      delta :=
        { role := some "assistant", content := none
          content_blocks := none
          tool_calls := some
            [{ index := toolCallIndex
               id := none
               type := none
               function := { name := none,
                             arguments := toolCall.function.arguments } }] }
      finish_reason := none, groundingMetadata := none }

/-- The tool-call pass of one choice: guarded by
`choice.message && choice.message.tool_calls &&
choice.message.tool_calls.length` (an empty list has falsy length); each
call yields its name event then its arguments event. -/
def toolCallsPart (t : StreamChunkTemplate) (index : Nat)
    (message : Option Message) : List StreamChunk :=
  match message with
  | some m =>
    match m.tool_calls with
    | some toolCalls =>
      if toolCalls.length = 0 then []
      else
        (toolCalls.enum.map fun p =>
          [toolCallNameChunk t index p.1 p.2,
           toolCallArgumentChunk t index p.1 p.2]).flatten
    | none => []
  | none => []

/-- One flat-content slice event: `delta = \x7b role, content: slice \x7d`,
with the choice's grounding metadata passed through on the choice object
when present. -/
def flatContentChunk (t : StreamChunkTemplate) (index : Nat)
    (groundingMetadata : Option String) (content : String) : StreamChunk :=
  mkChunk t
    { index := index
      delta :=
        { role := some "assistant", content := some (some content)
          content_blocks := none, tool_calls := none }
      finish_reason := none, groundingMetadata := groundingMetadata }

/-- The flat-content fallback pass of one choice: runs only when the
message exists, its `content` is a truthy string, and `content_blocks` is
absent.  (`typeof content === 'string'` always holds in this model, where
`content` is a string when present.) -/
def flatContentPart (t : StreamChunkTemplate) (index : Nat)
    (choice : Choice) : List StreamChunk :=
  match choice.message with
  | some m =>
    if truthyStr m.content && m.content_blocks.isNone then
      (sliceField (m.content.getD "")).map
        (flatContentChunk t index choice.groundingMetadata)
    else []
  | none => []

/-- The finish event of one choice: `delta: \x7b\x7d` and the choice's
`finish_reason` copied verbatim (absent when the choice has none). -/
def finishChunk (t : StreamChunkTemplate) (index : Nat)
    (choice : Choice) : StreamChunk :=
  mkChunk t
    { index := index, delta := emptyDelta,
      finish_reason := choice.finish_reason, groundingMetadata := none }

/-- All events of one choice, in the source's order: content blocks, then
tool calls, then the flat-content fallback, then the single finish event. -/
def choiceEvents (t : StreamChunkTemplate) (index : Nat)
    (choice : Choice) : List StreamChunk :=
  contentBlocksPart t index choice.message
    ++ toolCallsPart t index choice.message
    ++ flatContentPart t index choice
    ++ [finishChunk t index choice]

/-- All non-sentinel chunks of one response, choices in input order. -/
def streamChunks (response : OpenAIChatCompleteResponse) (provider : String)
    (now : Nat) : List StreamChunk :=
  (response.choices.enum.map fun p =>
    choiceEvents (streamChunkTemplate response provider now) p.1 p.2).flatten

/-- One element of the output sequence: a JSON chunk or the `[DONE]`
sentinel. -/
inductive StreamItem where
  | chunk : StreamChunk → StreamItem
  | done : StreamItem
deriving DecidableEq, Repr

/-- The output sequence in structured form: every chunk, then the
sentinel. -/
def streamItems (response : OpenAIChatCompleteResponse) (provider : String)
    (now : Nat) : List StreamItem :=
  (streamChunks response provider now).map StreamItem.chunk
    ++ [StreamItem.done]

/-- One hexadecimal digit, lower case, as `JSON.stringify` prints them. -/
def hexDigit (n : Nat) : Char :=
  if n < 10 then Char.ofNat (48 + n) else Char.ofNat (87 + n)

/-- Four hexadecimal digits of a code point below `0x10000`. -/
def hex4 (n : Nat) : String :=
  String.mk [hexDigit (n / 4096 % 16), hexDigit (n / 256 % 16),
             hexDigit (n / 16 % 16), hexDigit (n % 16)]

/-- `JSON.stringify`'s escaping of one character inside a string literal. -/
def escapeJsonChar (c : Char) : String :=
  if c = '"' then "\\\""
  else if c = '\\' then "\\\\"
  else if c = '\n' then "\\n"
  else if c = '\r' then "\\r"
  else if c = '\t' then "\\t"
  else if c = Char.ofNat 8 then "\\b"
  else if c = Char.ofNat 12 then "\\f"
  else if c.toNat < 32 then "\\u" ++ hex4 c.toNat
  else String.singleton c

/-- A JSON string literal. -/
def jsonString (s : String) : String :=
  "\"" ++ String.join (s.data.map escapeJsonChar) ++ "\""

/-- One `"key":value` member of a JSON object. -/
def jsonField (key value : String) : String :=
  jsonString key ++ ":" ++ value

/-- An optional string-valued member: absent when the value is undefined. -/
def optStrField (key : String) : Option String → List String
  | some v => [jsonField key (jsonString v)]
  | none => []

/-- An optional number-valued member: absent when the value is undefined. -/
def optNatField (key : String) : Option Nat → List String
  | some n => [jsonField key (toString n)]
  | none => []

/-- A JSON object from its already-rendered members, in insertion order. -/
def renderObj (fields : List String) : String :=
  "\x7b" ++ String.intercalate "," fields ++ "\x7d"

/-- A JSON array from its already-rendered elements. -/
def renderArr (elems : List String) : String :=
  "[" ++ String.intercalate "," elems ++ "]"

/-- The serialized usage object, keys in the template's spread order. -/
def renderUsage (u : UsageOut) : String :=
  renderObj
    (optNatField "completion_tokens" u.completion_tokens
      ++ optNatField "prompt_tokens" u.prompt_tokens
      ++ optNatField "total_tokens" u.total_tokens
      ++ optNatField "cache_read_input_tokens" u.cache_read_input_tokens
      ++ optNatField "cache_creation_input_tokens" u.cache_creation_input_tokens
      ++ optNatField "num_search_queries" u.num_search_queries)

/-- The serialized inner delta of a content-block entry; the source writes
exactly one of the four keys there, and an undefined `signature` leaves an
empty object. -/
def renderContentBlockDelta (d : ContentBlockDelta) : String :=
  renderObj
    (optStrField "text" d.text ++ optStrField "thinking" d.thinking
      ++ optStrField "data" d.data ++ optStrField "signature" d.signature)

/-- One serialized entry of `delta.content_blocks`. -/
def renderContentBlockEntry (e : ContentBlockChunkOut) : String :=
  renderObj
    [jsonField "index" (toString e.index),
     jsonField "delta" (renderContentBlockDelta e.delta)]

/-- One serialized entry of `delta.tool_calls`. -/
def renderToolCallEntry (e : ToolCallChunkOut) : String :=
  renderObj
    ([jsonField "index" (toString e.index)]
      ++ optStrField "id" e.id
      ++ optStrField "type" e.type
      ++ [jsonField "function"
            (renderObj (optStrField "name" e.function.name
              ++ [jsonField "arguments" (jsonString e.function.arguments)]))])

/-- The serialized `delta` object of a choice, keys in the source's
insertion order; `content: null` is written out, an absent `content` is
not. -/
def renderDelta (d : Delta) : String :=
  renderObj
    (optStrField "role" d.role
      ++ (match d.content with
          | none => []
          | some none => [jsonField "content" "null"]
          | some (some s) => [jsonField "content" (jsonString s)])
      ++ (match d.content_blocks with
          | some es =>
            [jsonField "content_blocks" (renderArr (es.map renderContentBlockEntry))]
          | none => [])
      ++ (match d.tool_calls with
          | some es =>
            [jsonField "tool_calls" (renderArr (es.map renderToolCallEntry))]
          | none => []))

/-- One serialized element of the `choices` array. -/
def renderChoiceDelta (cd : ChoiceDelta) : String :=
  renderObj
    ([jsonField "index" (toString cd.index),
      jsonField "delta" (renderDelta cd.delta)]
      ++ optStrField "finish_reason" cd.finish_reason
      ++ (match cd.groundingMetadata with
          | some g => [jsonField "groundingMetadata" g]
          | none => []))

/-- The members of a serialized chunk, in the template's insertion order:
`id`, `object`, `created`, `model`, `system_fingerprint` (an explicit
`null` when absent), `provider`, `usage`, `citations` when present, then
this event's `choices`. -/
def chunkBody (c : StreamChunk) : String :=
  String.intercalate ","
    ([jsonField "id" (jsonString c.id),
      jsonField "object" (jsonString c.object),
      jsonField "created" (toString c.created),
      jsonField "model" (jsonString c.model),
      jsonField "system_fingerprint"
        (match c.system_fingerprint with
         | some s => jsonString s
         | none => "null"),
      jsonField "provider" (jsonString c.provider),
      jsonField "usage" (renderUsage c.usage)]
      ++ (match c.citations with
          | some cs => [jsonField "citations" (renderArr (cs.map jsonString))]
          | none => [])
      ++ [jsonField "choices" (renderArr (c.choices.map renderChoiceDelta))])

/-- The serialized JSON of one chunk. -/
def renderChunk (c : StreamChunk) : String :=
  "\x7b" ++ chunkBody c ++ "\x7d"

/-- Wire framing: `"data: " + payload + "\n\n"`; the sentinel's payload is
the literal token `[DONE]`. -/
def wireString : StreamItem → String
  | .chunk c => "data: " ++ renderChunk c ++ "\n\n"
  | .done => "data: [DONE]\n\n"

/-- `OpenAIChatCompleteJSONToStreamResponseTransform` of the source, with
`Date.now()` passed in as `now`: the ordered list of wire event strings. -/
def OpenAIChatCompleteJSONToStreamResponseTransform
    (response : OpenAIChatCompleteResponse) (provider : String)
    (now : Nat) : List String :=
  (streamItems response provider now).map wireString

/-- An error-shaped body: the non-streaming transform only tests the
presence of its `error` field, so the body itself stays opaque. -/
structure ErrorPayload where
  error : String
deriving DecidableEq, Repr

/-- The non-streaming transform's input, `OpenAIChatCompleteResponse |
ErrorResponse`: a success response has no `error` field, an error response
does. -/
inductive ChatResponseOrError where
  | success : OpenAIChatCompleteResponse → ChatResponseOrError
  | failure : ErrorPayload → ChatResponseOrError
deriving DecidableEq, Repr

/-- The `'error' in response` membership test of the source. -/
def hasErrorField : ChatResponseOrError → Bool
  | .success _ => false
  | .failure _ => true

/-- `OpenAIChatCompleteResponseTransform` of the source.  The external
`OpenAIErrorResponseTransform` lives in `utils`, outside the snapshot; the
spec specifies it only as a pure collaborator function, so it is taken here
as the parameter `errorTransform` and its result is returned unchanged. -/
def OpenAIChatCompleteResponseTransform
    (errorTransform : ChatResponseOrError → String → ChatResponseOrError)
    (response : ChatResponseOrError) (responseStatus : Nat) :
    ChatResponseOrError :=
  if responseStatus != 200 && hasErrorField response then
    errorTransform response OPEN_AI
  else response

/-- Observer: the `text` payload a chunk's single content-block delta
carries, when it carries one. -/
def blockTextDelta (c : StreamChunk) : Option String :=
  match c.choices with
  | [cd] =>
    match cd.delta.content_blocks with
    | some [e] => e.delta.text
    | _ => none
  | _ => none

/-- Observer: the `thinking` payload a chunk's single content-block delta
carries, when it carries one. -/
def blockThinkingDelta (c : StreamChunk) : Option String :=
  match c.choices with
  | [cd] =>
    match cd.delta.content_blocks with
    | some [e] => e.delta.thinking
    | _ => none
  | _ => none

/-- Observer: the `data` payload a chunk's single content-block delta
carries, when it carries one. -/
def blockDataDelta (c : StreamChunk) : Option String :=
  match c.choices with
  | [cd] =>
    match cd.delta.content_blocks with
    | some [e] => e.delta.data
    | _ => none
  | _ => none

/-- Observer: the flat `delta.content` string a chunk carries, when it
carries one (`null` does not count). -/
def flatContentDelta (c : StreamChunk) : Option String :=
  match c.choices with
  | [cd] =>
    match cd.delta.content with
    | some (some s) => some s
    | _ => none
  | _ => none

/-- A chunk some of whose choice deltas carry `content_blocks`. -/
def isContentBlockEvent (c : StreamChunk) : Bool :=
  c.choices.any fun cd => cd.delta.content_blocks.isSome

/-- A chunk some of whose choice deltas carry `tool_calls`. -/
def isToolCallEvent (c : StreamChunk) : Bool :=
  c.choices.any fun cd => cd.delta.tool_calls.isSome

/-- A chunk some of whose choice deltas are the empty `delta: \x7b\x7d` of
a finish event: none of the four delta keys is present. -/
def isFinishEvent (c : StreamChunk) : Bool :=
  c.choices.any fun cd =>
    cd.delta.role.isNone && cd.delta.content.isNone &&
      cd.delta.content_blocks.isNone && cd.delta.tool_calls.isNone

/-! ### Concrete inputs used to exercise the theorems -/

/-- A small shared template for exercising the per-choice emitters. -/
def exampleTemplate : StreamChunkTemplate :=
  { id := "i", created := 0, model := "", system_fingerprint := none,
    provider := "p", usage := buildUsage none "p", citations := none }

/-- A choice whose message is absent: only its finish event is emitted. -/
def emptyMessageChoice : Choice :=
  { message := none, finish_reason := some "stop", groundingMetadata := none }

/-- A response with both token counts present and non-zero. -/
def exampleC3Response : OpenAIChatCompleteResponse :=
  { id := "i", model := none, system_fingerprint := none,
    choices := [emptyMessageChoice],
    usage := some
      { prompt_tokens := some 3, completion_tokens := some 4,
        cache_read_input_tokens := none, cache_creation_input_tokens := none,
        num_search_queries := none },
    citations := none }

/-- A response whose usage reports zero prompt tokens and five completion
tokens: both counts are present in the input. -/
def exampleC3ZeroResponse : OpenAIChatCompleteResponse :=
  { id := "i", model := none, system_fingerprint := none,
    choices := [emptyMessageChoice],
    usage := some
      { prompt_tokens := some 0, completion_tokens := some 5,
        cache_read_input_tokens := none, cache_creation_input_tokens := none,
        num_search_queries := none },
    citations := none }

/-- A response whose usage defines only the cache-read count (as zero). -/
def exampleC4Response : OpenAIChatCompleteResponse :=
  { id := "i", model := none, system_fingerprint := none,
    choices := [emptyMessageChoice],
    usage := some
      { prompt_tokens := none, completion_tokens := none,
        cache_read_input_tokens := some 0, cache_creation_input_tokens := none,
        num_search_queries := none },
    citations := none }

/-- A response whose usage defines both cache counts, one of them zero. -/
def exampleC4BothResponse : OpenAIChatCompleteResponse :=
  { id := "i", model := none, system_fingerprint := none,
    choices := [emptyMessageChoice],
    usage := some
      { prompt_tokens := none, completion_tokens := none,
        cache_read_input_tokens := some 2, cache_creation_input_tokens := some 0,
        num_search_queries := none },
    citations := none }

/-- A thinking block with no signature. -/
def exampleThinkingBlock : ContentBlock :=
  { text := none, thinking := some "hi", data := none, signature := none }

/-- A thinking block with a signature. -/
def exampleThinkingBlockSig : ContentBlock :=
  { text := none, thinking := some "hi", data := none,
    signature := some "sg" }

/-- A message holding one tool call and nothing else. -/
def exampleToolCallMessage : Message :=
  { content := none, content_blocks := none,
    tool_calls := some
      [{ id := "t1", function := { name := "f", arguments := "a" } }] }

/-- A response with no choices at all. -/
def exampleEmptyResponse : OpenAIChatCompleteResponse :=
  { id := "i", model := none, system_fingerprint := none, choices := [],
    usage := none, citations := none }

/-- A response with every envelope field populated. -/
def exampleC9Response : OpenAIChatCompleteResponse :=
  { id := "i", model := some "m", system_fingerprint := some "fp",
    choices := [emptyMessageChoice],
    usage := some
      { prompt_tokens := some 3, completion_tokens := some 4,
        cache_read_input_tokens := none, cache_creation_input_tokens := none,
        num_search_queries := none },
    citations := some ["u"] }

/-! ### Helper lemmas about the slicing loop -/

/-- Appending strings concatenates their character lists. -/
theorem mk_append (a b : List Char) :
    String.mk a ++ String.mk b = String.mk (a ++ b) := rfl

/-- The loop runs once more on at least one character. -/
theorem jsSliceCount_pos (len : Nat) (h : 0 < len) :
    jsSliceCount len = jsSliceCount (len - 500) + 1 := by
  unfold jsSliceCount
  omega

/-- Concatenating the slices of the loop restores the input. -/
theorem jsSliceChunks_flatten (l : List Char) :
    (jsSliceChunks l).flatten = l := by
  by_cases h : l = []
  · subst h; rfl
  · have hlen : 0 < l.length := List.length_pos.mpr h
    have ih := jsSliceChunks_flatten (l.drop 500)
    rw [jsSliceChunks, jsSliceCount_pos l.length hlen,
      List.range_succ_eq_map, List.map_cons, List.map_map]
    have htail :
        (List.range (jsSliceCount (l.length - 500))).map
            ((fun k => (l.drop (500 * k)).take 500) ∘ Nat.succ)
          = jsSliceChunks (l.drop 500) := by
      rw [jsSliceChunks, List.length_drop]
      refine List.map_congr_left fun k _ => ?_
      simp only [Function.comp_apply, List.drop_drop]
      refine congrArg (List.take 500) (congrArg (fun n => List.drop n l) ?_)
      omega
    rw [htail]
    simp only [Nat.mul_zero, List.drop_zero, List.flatten_cons, ih,
      List.take_append_drop]
termination_by l.length
decreasing_by
  simp only [List.length_drop]
  omega

/-- Every slice of the loop keeps at most 500 characters. -/
theorem jsSliceChunks_length_le (l : List Char) :
    ∀ p ∈ jsSliceChunks l, p.length ≤ 500 := by
  intro p hp
  unfold jsSliceChunks at hp
  obtain ⟨k, _, rfl⟩ := List.mem_map.mp hp
  simp [List.length_take]

/-- The loop emits exactly `ceil(length / 500)` slices. -/
theorem jsSliceChunks_length (l : List Char) :
    (jsSliceChunks l).length = (l.length + 499) / 500 := by
  simp [jsSliceChunks, jsSliceCount]

/-- `String.join` over `String.mk` is `String.mk` over `flatten`. -/
theorem join_map_mk (ls : List (List Char)) :
    String.join (ls.map String.mk) = String.mk ls.flatten := by
  suffices h : ∀ acc : List Char,
      (ls.map String.mk).foldl (· ++ ·) (String.mk acc)
        = String.mk (acc ++ ls.flatten) by
    have := h []
    simpa [String.join] using this
  induction ls with
  | nil => intro acc; simp
  | cons a t ih =>
    intro acc
    simp only [List.map_cons, List.foldl_cons, mk_append, ih,
      List.flatten_cons, List.append_assoc]

/-- Concatenating the slices of a field restores the field. -/
theorem sliceField_join (s : String) :
    String.join (sliceField s) = s := by
  rw [sliceField, join_map_mk, jsSliceChunks_flatten]

/-- Every slice of a field has at most 500 characters. -/
theorem sliceField_length_le (s : String) :
    ∀ p ∈ sliceField s, p.length ≤ 500 := by
  intro p hp
  obtain ⟨l, hl, rfl⟩ := List.mem_map.mp hp
  exact jsSliceChunks_length_le s.data l hl

/-- A field is cut into exactly `ceil(length / 500)` slices. -/
theorem sliceField_length (s : String) :
    (sliceField s).length = (s.length + 499) / 500 := by
  rw [sliceField, List.length_map, jsSliceChunks_length]
  rfl

/-! ### Helper lemmas about the per-block and per-choice emitters -/

/-- A block with truthy `text` takes the text branch. -/
theorem contentBlockEvents_text (t : StreamChunkTemplate) (i bi : Nat)
    (b : ContentBlock) (h : truthyStr b.text = true) :
    contentBlockEvents t i bi b
      = (sliceField (b.text.getD "")).map (textSliceChunk t i bi) := by
  unfold contentBlockEvents
  rw [if_pos h]

/-- A block with falsy `text` and truthy `thinking` takes the thinking
branch: its slices, then the trailing signature event. -/
theorem contentBlockEvents_thinking (t : StreamChunkTemplate) (i bi : Nat)
    (b : ContentBlock) (h1 : truthyStr b.text = false)
    (h2 : truthyStr b.thinking = true) :
    contentBlockEvents t i bi b
      = (sliceField (b.thinking.getD "")).map (thinkingSliceChunk t i bi)
        ++ [signatureChunk t i bi b.signature] := by
  unfold contentBlockEvents
  rw [if_neg (by simp [h1]), if_pos h2]

/-- A block with falsy `text` and `thinking` and truthy `data` takes the
data branch. -/
theorem contentBlockEvents_data (t : StreamChunkTemplate) (i bi : Nat)
    (b : ContentBlock) (h1 : truthyStr b.text = false)
    (h2 : truthyStr b.thinking = false) (h3 : truthyStr b.data = true) :
    contentBlockEvents t i bi b
      = (sliceField (b.data.getD "")).map (dataSliceChunk t i bi) := by
  unfold contentBlockEvents
  rw [if_neg (by simp [h1]), if_neg (by simp [h2]), if_pos h3]

/-- Every event of a content block is the shared template with one choice
delta. -/
theorem contentBlockEvents_mkChunk (t : StreamChunkTemplate) (i bi : Nat)
    (b : ContentBlock) (c : StreamChunk)
    (hc : c ∈ contentBlockEvents t i bi b) : ∃ cd, c = mkChunk t cd := by
  unfold contentBlockEvents at hc
  split_ifs at hc with h1 h2 h3
  · obtain ⟨w, _, rfl⟩ := List.mem_map.mp hc
    exact ⟨_, rfl⟩
  · rcases List.mem_append.mp hc with hm | hm
    · obtain ⟨w, _, rfl⟩ := List.mem_map.mp hm
      exact ⟨_, rfl⟩
    · rw [List.mem_singleton.mp hm]
      exact ⟨_, rfl⟩
  · obtain ⟨w, _, rfl⟩ := List.mem_map.mp hc
    exact ⟨_, rfl⟩
  · cases hc

/-- Every event of the content-block pass is the shared template with one
choice delta. -/
theorem contentBlocksPart_mkChunk (t : StreamChunkTemplate) (i : Nat)
    (msg : Option Message) (c : StreamChunk)
    (hc : c ∈ contentBlocksPart t i msg) : ∃ cd, c = mkChunk t cd := by
  rcases msg with _ | ⟨mc, mcb, mtc⟩
  · simp [contentBlocksPart] at hc
  · rcases mcb with _ | bs
    · simp [contentBlocksPart] at hc
    · simp only [contentBlocksPart] at hc
      obtain ⟨l, hl, hcl⟩ := List.mem_flatten.mp hc
      obtain ⟨p, _, rfl⟩ := List.mem_map.mp hl
      exact contentBlockEvents_mkChunk t i p.1 p.2 c hcl

/-- Every event of the tool-call pass is the shared template with one
choice delta. -/
theorem toolCallsPart_mkChunk (t : StreamChunkTemplate) (i : Nat)
    (msg : Option Message) (c : StreamChunk)
    (hc : c ∈ toolCallsPart t i msg) : ∃ cd, c = mkChunk t cd := by
  rcases msg with _ | ⟨mc, mcb, mtc⟩
  · simp [toolCallsPart] at hc
  · rcases mtc with _ | tcs
    · simp [toolCallsPart] at hc
    · simp only [toolCallsPart] at hc
      split_ifs at hc with h
      · cases hc
      · obtain ⟨l, hl, hcl⟩ := List.mem_flatten.mp hc
        obtain ⟨p, _, rfl⟩ := List.mem_map.mp hl
        rcases hcl with _ | ⟨_, _ | ⟨_, h0⟩⟩
        · exact ⟨_, rfl⟩
        · exact ⟨_, rfl⟩
        · cases h0

/-- Every event of the flat-content pass is the shared template with one
choice delta. -/
theorem flatContentPart_mkChunk (t : StreamChunkTemplate) (i : Nat)
    (choice : Choice) (c : StreamChunk)
    (hc : c ∈ flatContentPart t i choice) : ∃ cd, c = mkChunk t cd := by
  rcases choice with ⟨msg, fr, gm⟩
  rcases msg with _ | ⟨mc, mcb, mtc⟩
  · simp [flatContentPart] at hc
  · simp only [flatContentPart] at hc
    split_ifs at hc with h
    · obtain ⟨w, _, rfl⟩ := List.mem_map.mp hc
      exact ⟨_, rfl⟩
    · cases hc

/-- Every event of one choice is the shared template with one choice
delta. -/
theorem choiceEvents_mkChunk (t : StreamChunkTemplate) (i : Nat)
    (choice : Choice) (c : StreamChunk)
    (hc : c ∈ choiceEvents t i choice) : ∃ cd, c = mkChunk t cd := by
  unfold choiceEvents at hc
  rcases List.mem_append.mp hc with hm | hm
  swap
  · rw [List.mem_singleton.mp hm]
    exact ⟨_, rfl⟩
  rcases List.mem_append.mp hm with hm2 | hm2
  swap
  · exact flatContentPart_mkChunk t i choice c hm2
  rcases List.mem_append.mp hm2 with hm3 | hm3
  · exact contentBlocksPart_mkChunk t i choice.message c hm3
  · exact toolCallsPart_mkChunk t i choice.message c hm3

/-- Every chunk of a response's stream is the response's shared template
with one choice delta. -/
theorem streamChunks_mkChunk (response : OpenAIChatCompleteResponse)
    (provider : String) (now : Nat) (c : StreamChunk)
    (hc : c ∈ streamChunks response provider now) :
    ∃ cd, c = mkChunk (streamChunkTemplate response provider now) cd := by
  unfold streamChunks at hc
  obtain ⟨l, hl, hcl⟩ := List.mem_flatten.mp hc
  obtain ⟨p, _, rfl⟩ := List.mem_map.mp hl
  exact choiceEvents_mkChunk _ p.1 p.2 c hcl

/-- A structured chunk of the output stream is a member of
`streamChunks`. -/
theorem mem_streamChunks_of_mem_streamItems
    (response : OpenAIChatCompleteResponse) (provider : String) (now : Nat)
    (c : StreamChunk)
    (hc : StreamItem.chunk c ∈ streamItems response provider now) :
    c ∈ streamChunks response provider now := by
  unfold streamItems at hc
  rcases List.mem_append.mp hc with hm | hm
  · obtain ⟨c2, hc2, he⟩ := List.mem_map.mp hm
    cases he
    exact hc2
  · cases List.mem_singleton.mp hm

/-- Every event of the content-block pass carries `content_blocks`, never
`tool_calls`, and is not finish-shaped. -/
theorem contentBlocksPart_shape (t : StreamChunkTemplate) (i : Nat)
    (msg : Option Message) (c : StreamChunk)
    (hc : c ∈ contentBlocksPart t i msg) :
    isContentBlockEvent c = true ∧ isToolCallEvent c = false
      ∧ isFinishEvent c = false := by
  rcases msg with _ | ⟨mc, mcb, mtc⟩
  · simp [contentBlocksPart] at hc
  · rcases mcb with _ | bs
    · simp [contentBlocksPart] at hc
    · simp only [contentBlocksPart] at hc
      obtain ⟨l, hl, hcl⟩ := List.mem_flatten.mp hc
      obtain ⟨p, _, rfl⟩ := List.mem_map.mp hl
      unfold contentBlockEvents at hcl
      split_ifs at hcl with h1 h2 h3
      · obtain ⟨w, _, rfl⟩ := List.mem_map.mp hcl
        exact ⟨rfl, rfl, rfl⟩
      · rcases List.mem_append.mp hcl with hm | hm
        · obtain ⟨w, _, rfl⟩ := List.mem_map.mp hm
          exact ⟨rfl, rfl, rfl⟩
        · rw [List.mem_singleton.mp hm]
          exact ⟨rfl, rfl, rfl⟩
      · obtain ⟨w, _, rfl⟩ := List.mem_map.mp hcl
        exact ⟨rfl, rfl, rfl⟩
      · cases hcl

/-- Every event of the tool-call pass carries `tool_calls`, never
`content_blocks`, and is not finish-shaped. -/
theorem toolCallsPart_shape (t : StreamChunkTemplate) (i : Nat)
    (msg : Option Message) (c : StreamChunk)
    (hc : c ∈ toolCallsPart t i msg) :
    isToolCallEvent c = true ∧ isContentBlockEvent c = false
      ∧ isFinishEvent c = false := by
  rcases msg with _ | ⟨mc, mcb, mtc⟩
  · simp [toolCallsPart] at hc
  · rcases mtc with _ | tcs
    · simp [toolCallsPart] at hc
    · simp only [toolCallsPart] at hc
      split_ifs at hc with h
      · cases hc
      · obtain ⟨l, hl, hcl⟩ := List.mem_flatten.mp hc
        obtain ⟨p, _, rfl⟩ := List.mem_map.mp hl
        rcases hcl with _ | ⟨_, _ | ⟨_, h0⟩⟩
        · exact ⟨rfl, rfl, rfl⟩
        · exact ⟨rfl, rfl, rfl⟩
        · cases h0

/-- Every event of the flat-content pass carries neither `content_blocks`
nor `tool_calls` and is not finish-shaped (its delta has a role). -/
theorem flatContentPart_shape (t : StreamChunkTemplate) (i : Nat)
    (choice : Choice) (c : StreamChunk)
    (hc : c ∈ flatContentPart t i choice) :
    isContentBlockEvent c = false ∧ isToolCallEvent c = false
      ∧ isFinishEvent c = false := by
  rcases choice with ⟨msg, fr, gm⟩
  rcases msg with _ | ⟨mc, mcb, mtc⟩
  · simp [flatContentPart] at hc
  · simp only [flatContentPart] at hc
    split_ifs at hc with h
    · obtain ⟨w, _, rfl⟩ := List.mem_map.mp hc
      exact ⟨rfl, rfl, rfl⟩
    · cases hc

/-! ### The claims -/

/-- C1: for every content block of kind text, thinking or data, and for the
flat-content fallback path, concatenating in emission order the sliced
delta payloads of all events derived from that field reproduces the
original field's full string exactly. -/
theorem delta_concatenation_roundtrip (t : StreamChunkTemplate) (i bi : Nat)
    (b : ContentBlock) (ch : Choice) :
    (truthyStr b.text = true →
      String.join ((contentBlockEvents t i bi b).filterMap blockTextDelta)
        = b.text.getD "")
    ∧ (truthyStr b.text = false → truthyStr b.thinking = true →
      String.join ((contentBlockEvents t i bi b).filterMap blockThinkingDelta)
        = b.thinking.getD "")
    ∧ (truthyStr b.text = false → truthyStr b.thinking = false →
        truthyStr b.data = true →
      String.join ((contentBlockEvents t i bi b).filterMap blockDataDelta)
        = b.data.getD "")
    ∧ (∀ m : Message, ch.message = some m → truthyStr m.content = true →
        m.content_blocks = none →
      String.join ((flatContentPart t i ch).filterMap flatContentDelta)
        = m.content.getD "") := by
  refine ⟨fun h => ?_, fun h1 h2 => ?_, fun h1 h2 h3 => ?_,
    fun m hm hct hcb => ?_⟩
  · rw [contentBlockEvents_text t i bi b h, List.filterMap_map]
    have he : (blockTextDelta ∘ textSliceChunk t i bi) = Option.some :=
      funext fun w => rfl
    rw [he, List.filterMap_some, sliceField_join]
  · rw [contentBlockEvents_thinking t i bi b h1 h2, List.filterMap_append,
      List.filterMap_map]
    have he : (blockThinkingDelta ∘ thinkingSliceChunk t i bi) = Option.some :=
      funext fun w => rfl
    have hs : List.filterMap blockThinkingDelta [signatureChunk t i bi b.signature]
        = [] := rfl
    rw [he, hs, List.filterMap_some, List.append_nil, sliceField_join]
  · rw [contentBlockEvents_data t i bi b h1 h2 h3, List.filterMap_map]
    have he : (blockDataDelta ∘ dataSliceChunk t i bi) = Option.some :=
      funext fun w => rfl
    rw [he, List.filterMap_some, sliceField_join]
  · rcases ch with ⟨msg, fr, gm⟩
    cases hm
    simp only [flatContentPart]
    rw [if_pos (by simp [hct, hcb]), List.filterMap_map]
    have he : (flatContentDelta ∘ flatContentChunk t i gm) = Option.some :=
      funext fun w => rfl
    rw [he, List.filterMap_some, sliceField_join]

/-- C2: every emitted slice has at most 500 characters; a non-empty field
of length `L` is emitted as exactly `ceil(L / 500)` slice events (one event
per slice on every path); and an empty text or flat-content field never
reaches an emission path at all, because the truthiness guards reject the
empty string, so the length-0 case holds vacuously. -/
theorem slice_bounds_and_counts (t : StreamChunkTemplate) (i bi : Nat)
    (b : ContentBlock) (ch : Choice) (s : String) :
    (∀ p ∈ sliceField s, p.length ≤ 500)
    ∧ (s ≠ "" → (sliceField s).length = (s.length + 499) / 500)
    ∧ (truthyStr b.text = true →
        (contentBlockEvents t i bi b).length
          = (sliceField (b.text.getD "")).length)
    ∧ (truthyStr b.text = false → truthyStr b.thinking = true →
        ((contentBlockEvents t i bi b).filterMap blockThinkingDelta).length
          = (sliceField (b.thinking.getD "")).length)
    ∧ (truthyStr b.text = false → truthyStr b.thinking = false →
        truthyStr b.data = true →
        (contentBlockEvents t i bi b).length
          = (sliceField (b.data.getD "")).length)
    ∧ (∀ m : Message, ch.message = some m → truthyStr m.content = true →
        m.content_blocks = none →
        (flatContentPart t i ch).length
          = (sliceField (m.content.getD "")).length)
    ∧ truthyStr (some "") = false := by
  refine ⟨sliceField_length_le s, fun _ => sliceField_length s,
    fun h => ?_, fun h1 h2 => ?_, fun h1 h2 h3 => ?_,
    fun m hm hct hcb => ?_, rfl⟩
  · rw [contentBlockEvents_text t i bi b h, List.length_map]
  · rw [contentBlockEvents_thinking t i bi b h1 h2, List.filterMap_append,
      List.filterMap_map]
    have he : (blockThinkingDelta ∘ thinkingSliceChunk t i bi) = Option.some :=
      funext fun w => rfl
    have hs : List.filterMap blockThinkingDelta
        [signatureChunk t i bi b.signature] = [] := rfl
    rw [he, hs, List.filterMap_some, List.append_nil]
  · rw [contentBlockEvents_data t i bi b h1 h2 h3, List.length_map]
  · rcases ch with ⟨msg, fr, gm⟩
    cases hm
    simp only [flatContentPart]
    rw [if_pos (by simp [hct, hcb]), List.length_map]

/-- A present count survives the truthiness spread exactly when it is
non-zero. -/
theorem keepTruthy_isSome_iff (x : Option Nat) :
    (keepTruthy x).isSome = true ↔ x.getD 0 ≠ 0 := by
  cases x with
  | none => simp [keepTruthy]
  | some n =>
    by_cases h : n = 0 <;> simp [keepTruthy, h]

/-- A non-zero count passes the truthiness spread unchanged. -/
theorem keepTruthy_some_of_ne (n : Nat) (h : n ≠ 0) :
    keepTruthy (some n) = some n := by
  simp [keepTruthy, h]

/-- C3 (amended): `total_tokens` appears in the shared usage object exactly
when both input counts are present and non-zero - JavaScript truthiness
treats a present `0` like an absent field - and when it appears it equals
`prompt_tokens + completion_tokens`. -/
theorem total_tokens_presence (rsp : OpenAIChatCompleteResponse)
    (prov : String) (now : Nat) (c : StreamChunk)
    (hc : StreamItem.chunk c ∈ streamItems rsp prov now) :
    c.usage.total_tokens
      = (if (keepTruthy (rsp.usage.getD emptyUsage).prompt_tokens).isSome
            && (keepTruthy (rsp.usage.getD emptyUsage).completion_tokens).isSome
         then some ((rsp.usage.getD emptyUsage).prompt_tokens.getD 0
            + (rsp.usage.getD emptyUsage).completion_tokens.getD 0)
         else none) := by
  obtain ⟨cd, rfl⟩ := streamChunks_mkChunk rsp prov now c
    (mem_streamChunks_of_mem_streamItems rsp prov now c hc)
  show (buildUsage rsp.usage prov).total_tokens = _
  simp only [buildUsage]
  by_cases hA : (keepTruthy (rsp.usage.getD emptyUsage).prompt_tokens).isSome
      && (keepTruthy (rsp.usage.getD emptyUsage).completion_tokens).isSome
  · rw [if_pos hA]
    obtain ⟨hp, hcmp⟩ := Bool.and_eq_true_iff.mp hA
    exact keepTruthy_some_of_ne _ (by
      have h1 := (keepTruthy_isSome_iff _).mp hp
      have h2 := (keepTruthy_isSome_iff _).mp hcmp
      omega)
  · rw [if_neg hA]
    rfl

/-- Witness for C3's theorem: with `prompt_tokens = 3` and
`completion_tokens = 4` the single emitted chunk carries
`total_tokens = 7`. -/
theorem total_tokens_presence_witness :
    (mkChunk (streamChunkTemplate exampleC3Response OPEN_AI 0)
        { index := 0, delta := emptyDelta, finish_reason := some "stop",
          groundingMetadata := none }).usage.total_tokens = some 7 :=
  total_tokens_presence exampleC3Response OPEN_AI 0 _ (by decide)

/-- Counterexample to C3 as stated: with `prompt_tokens = 0` and
`completion_tokens = 5` both counts are present in the input usage, yet the
emitted chunk's usage carries no `total_tokens`, because the source guards
the sum with JavaScript truthiness and `0` is falsy. -/
theorem total_tokens_zero_counterexample :
    (exampleC3ZeroResponse.usage.getD emptyUsage).prompt_tokens = some 0
    ∧ (exampleC3ZeroResponse.usage.getD emptyUsage).completion_tokens = some 5
    ∧ (streamChunks exampleC3ZeroResponse OPEN_AI 0).map
        (fun c => c.usage.total_tokens) = [none] :=
  ⟨rfl, rfl, rfl⟩

/-- C4 (amended): a cache count appears in the shared usage object exactly
when the provider is the Anthropic family and that count itself is a
defined integer (`0` included), in which case its input value is carried
verbatim; a defined co-field makes the template spread fire, but an
undefined cache count inside it is dropped again at serialization. -/
theorem cache_usage_fields (rsp : OpenAIChatCompleteResponse)
    (prov : String) (now : Nat) (c : StreamChunk)
    (hc : StreamItem.chunk c ∈ streamItems rsp prov now) :
    c.usage.cache_read_input_tokens
      = (if prov == ANTHROPIC
         then (rsp.usage.getD emptyUsage).cache_read_input_tokens else none)
    ∧ c.usage.cache_creation_input_tokens
      = (if prov == ANTHROPIC
         then (rsp.usage.getD emptyUsage).cache_creation_input_tokens
         else none) := by
  obtain ⟨cd, rfl⟩ := streamChunks_mkChunk rsp prov now c
    (mem_streamChunks_of_mem_streamItems rsp prov now c hc)
  show ((buildUsage rsp.usage prov).cache_read_input_tokens = _)
    ∧ ((buildUsage rsp.usage prov).cache_creation_input_tokens = _)
  cases hp : (prov == ANTHROPIC) with
  | false => simp [buildUsage, shouldSendCacheUsage, hp]
  | true =>
    rcases hcr : (rsp.usage.getD emptyUsage).cache_read_input_tokens
        with _ | n <;>
      rcases hcc : (rsp.usage.getD emptyUsage).cache_creation_input_tokens
        with _ | m <;>
      simp [buildUsage, shouldSendCacheUsage, hp, hcr, hcc]

/-- Witness for C4's theorem: for the Anthropic provider with
`cache_read_input_tokens = 2` and `cache_creation_input_tokens = 0`, both
counts appear on the emitted chunk, the zero included. -/
theorem cache_usage_fields_witness :
    (mkChunk (streamChunkTemplate exampleC4BothResponse ANTHROPIC 0)
        { index := 0, delta := emptyDelta, finish_reason := some "stop",
          groundingMetadata := none }).usage.cache_read_input_tokens = some 2
    ∧ (mkChunk (streamChunkTemplate exampleC4BothResponse ANTHROPIC 0)
        { index := 0, delta := emptyDelta, finish_reason := some "stop",
          groundingMetadata := none }).usage.cache_creation_input_tokens
        = some 0 :=
  cache_usage_fields exampleC4BothResponse ANTHROPIC 0 _ (by decide)

/-- Counterexample to C4 as stated: for the Anthropic provider with
`cache_read_input_tokens = 0` defined and `cache_creation_input_tokens`
undefined, the claim's condition holds (the provider matches and one count
is a well-formed integer), yet only `cache_read_input_tokens` appears in
the emitted usage object - the undefined co-field is not included. -/
theorem cache_usage_counterexample :
    shouldSendCacheUsage ANTHROPIC (exampleC4Response.usage.getD emptyUsage)
        = true
    ∧ (streamChunks exampleC4Response ANTHROPIC 0).map
        (fun c => (c.usage.cache_read_input_tokens,
                   c.usage.cache_creation_input_tokens)) = [(some 0, none)] :=
  ⟨rfl, rfl⟩

/-- C5 (amended): a content block that reaches the thinking branch (falsy
`text`, truthy - hence non-empty - `thinking`) emits, immediately after its
final thinking slice, exactly one trailing event whose delta carries
`role: "assistant"` together with the signature-only
`content_blocks = [\x7bindex, delta: \x7bsignature\x7d\x7d]`, and this
event is emitted even when the block's signature is undefined. -/
theorem thinking_signature_trailing_event (t : StreamChunkTemplate)
    (i bi : Nat) (b : ContentBlock) (h1 : truthyStr b.text = false)
    (h2 : truthyStr b.thinking = true) :
    contentBlockEvents t i bi b
      = (sliceField (b.thinking.getD "")).map (thinkingSliceChunk t i bi)
        ++ [mkChunk t
            { index := i
              delta :=
                { role := some "assistant", content := none
                  content_blocks := some [{ index := bi, delta :=
                    { text := none, thinking := none, data := none,
                      signature := b.signature } }]
                  tool_calls := none }
              finish_reason := none, groundingMetadata := none }] :=
  contentBlockEvents_thinking t i bi b h1 h2

/-- Witness for C5's theorem: a two-character thinking block carrying no
signature still gets its trailing signature event. -/
theorem thinking_signature_witness :
    contentBlockEvents exampleTemplate 0 0 exampleThinkingBlock
      = (sliceField "hi").map (thinkingSliceChunk exampleTemplate 0 0)
        ++ [mkChunk exampleTemplate
            { index := 0
              delta :=
                { role := some "assistant", content := none
                  content_blocks := some [{ index := 0, delta :=
                    { text := none, thinking := none, data := none,
                      signature := none } }]
                  tool_calls := none }
              finish_reason := none, groundingMetadata := none }] :=
  thinking_signature_trailing_event exampleTemplate 0 0 exampleThinkingBlock
    (by decide) (by decide)

/-- Counterexample to C5 as stated: for a thinking block the trailing
event's delta does not carry only `content_blocks` - both emitted events,
the trailing one included, also carry `role: "assistant"`. -/
theorem thinking_signature_counterexample :
    (contentBlockEvents exampleTemplate 0 0 exampleThinkingBlockSig).map
        (fun c => c.choices.map fun cd => cd.delta.role)
      = [[some "assistant"], [some "assistant"]] := by
  decide

/-- No serialized chunk is the sentinel: its wire string opens the JSON
object with a brace where the sentinel has the bracket of `[DONE]`. -/
theorem wire_chunk_ne_sentinel (c : StreamChunk) :
    wireString (StreamItem.chunk c) ≠ "data: [DONE]\n\n" := by
  intro h
  have hd := congrArg (fun s => s.data.get? 6) h
  simp only [wireString, renderChunk] at hd
  generalize chunkBody c = b at hd
  rw [show ("data: " ++ ("\x7b" ++ b ++ "\x7d") ++ "\n\n").data
      = 'd' :: 'a' :: 't' :: 'a' :: ':' :: ' ' :: '\x7b'
        :: ((b.data ++ ['\x7d']) ++ ['\n', '\n']) from rfl] at hd
  rw [show ('d' :: 'a' :: 't' :: 'a' :: ':' :: ' ' :: '\x7b'
        :: ((b.data ++ ['\x7d']) ++ ['\n', '\n'])).get? 6
      = some '\x7b' from rfl] at hd
  rw [show "data: [DONE]\n\n".data.get? 6 = some '[' from rfl] at hd
  exact absurd hd (by decide)

/-- C6: the output sequence always ends with the literal sentinel string
`"data: [DONE]\n\n"`, contains it exactly once, and for a response with
zero choices the sentinel is the only element. -/
theorem sentinel_last_and_unique (rsp : OpenAIChatCompleteResponse)
    (prov : String) (now : Nat) :
    (OpenAIChatCompleteJSONToStreamResponseTransform rsp prov now).getLast?
        = some "data: [DONE]\n\n"
    ∧ (OpenAIChatCompleteJSONToStreamResponseTransform rsp prov now).count
        "data: [DONE]\n\n" = 1
    ∧ (rsp.choices = [] →
        OpenAIChatCompleteJSONToStreamResponseTransform rsp prov now
          = ["data: [DONE]\n\n"]) := by
  have hrw : OpenAIChatCompleteJSONToStreamResponseTransform rsp prov now
      = (streamChunks rsp prov now).map
          (fun c => wireString (StreamItem.chunk c))
        ++ ["data: [DONE]\n\n"] := by
    unfold OpenAIChatCompleteJSONToStreamResponseTransform streamItems
    rw [List.map_append, List.map_map]
    rfl
  refine ⟨?_, ?_, ?_⟩
  · rw [hrw, List.getLast?_concat]
  · rw [hrw, List.count_append]
    have h0 : ((streamChunks rsp prov now).map
        (fun c => wireString (StreamItem.chunk c))).count
          "data: [DONE]\n\n" = 0 := by
      rw [List.count_eq_zero]
      intro hmem
      obtain ⟨c, _, he⟩ := List.mem_map.mp hmem
      exact wire_chunk_ne_sentinel c he
    rw [h0]
    rfl
  · intro hch
    rw [hrw]
    unfold streamChunks
    rw [hch]
    rfl

/-- Witness for C6's theorem: a response with zero choices produces the
sentinel alone. -/
theorem sentinel_witness :
    OpenAIChatCompleteJSONToStreamResponseTransform exampleEmptyResponse
        "p" 0 = ["data: [DONE]\n\n"] :=
  (sentinel_last_and_unique exampleEmptyResponse "p" 0).2.2 rfl

/-- C7: within one choice, every content-block event precedes every
tool-call event, these precede the flat-content fallback events, and the
choice ends with exactly one finish event, emitted even for an empty
message, carrying the empty delta and the choice's `finish_reason`
verbatim; no event of the three leading passes is finish-shaped, and the
passes carry only their own kind of payload. -/
theorem choice_event_ordering (t : StreamChunkTemplate) (i : Nat)
    (choice : Choice) :
    choiceEvents t i choice
      = contentBlocksPart t i choice.message
        ++ toolCallsPart t i choice.message
        ++ flatContentPart t i choice
        ++ [mkChunk t
            { index := i, delta := emptyDelta,
              finish_reason := choice.finish_reason,
              groundingMetadata := none }]
    ∧ (∀ e ∈ contentBlocksPart t i choice.message,
        isContentBlockEvent e = true ∧ isToolCallEvent e = false
          ∧ isFinishEvent e = false)
    ∧ (∀ e ∈ toolCallsPart t i choice.message,
        isToolCallEvent e = true ∧ isContentBlockEvent e = false
          ∧ isFinishEvent e = false)
    ∧ (∀ e ∈ flatContentPart t i choice,
        isContentBlockEvent e = false ∧ isToolCallEvent e = false
          ∧ isFinishEvent e = false)
    ∧ isFinishEvent (mkChunk t
          { index := i, delta := emptyDelta,
            finish_reason := choice.finish_reason,
            groundingMetadata := none }) = true :=
  ⟨rfl, fun e he => contentBlocksPart_shape t i choice.message e he,
    fun e he => toolCallsPart_shape t i choice.message e he,
    fun e he => flatContentPart_shape t i choice e he, rfl⟩

/-- C8: each tool call of a non-empty tool-call list is emitted as exactly
two consecutive events, the name event (with the call's `id`,
`type: "function"`, its name, empty arguments and an explicit `null`
top-level `content`) followed by the arguments event carrying the complete
arguments blob in one piece, never split regardless of its length. -/
theorem tool_call_event_pair (t : StreamChunkTemplate) (i : Nat)
    (m : Message) (tcs : List ToolCall) (h : m.tool_calls = some tcs)
    (hne : tcs ≠ []) :
    toolCallsPart t i (some m)
      = (tcs.enum.map fun p =>
          [mkChunk t
            { index := i
              delta :=
                { role := some "assistant", content := some none
                  content_blocks := none
                  tool_calls := some
                    [{ index := p.1
                       id := some p.2.id
                       type := some "function"
                       function := { name := some p.2.function.name,
                                     arguments := "" } }] }
              finish_reason := none, groundingMetadata := none },
           mkChunk t
            { index := i
              delta :=
                { role := some "assistant", content := none
                  content_blocks := none
                  tool_calls := some
                    [{ index := p.1
                       id := none
                       type := none
                       function := { name := none,
                                     arguments := p.2.function.arguments } }] }
              finish_reason := none, groundingMetadata := none }]).flatten := by
  rcases m with ⟨mc, mcb, mtc⟩
  cases h
  simp only [toolCallsPart]
  rw [if_neg (by simp [hne])]
  rfl

/-- Witness for C8's theorem: one tool call named `f` with arguments `a`
yields exactly its name event and its (unsplit) arguments event. -/
theorem tool_call_event_pair_witness :
    toolCallsPart exampleTemplate 0 (some exampleToolCallMessage)
      = [mkChunk exampleTemplate
          { index := 0
            delta :=
              { role := some "assistant", content := some none
                content_blocks := none
                tool_calls := some
                  [{ index := 0
                     id := some "t1"
                     type := some "function"
                     function := { name := some "f", arguments := "" } }] }
            finish_reason := none, groundingMetadata := none },
         mkChunk exampleTemplate
          { index := 0
            delta :=
              { role := some "assistant", content := none
                content_blocks := none
                tool_calls := some
                  [{ index := 0
                     id := none
                     type := none
                     function := { name := none, arguments := "a" } }] }
            finish_reason := none, groundingMetadata := none }] :=
  tool_call_event_pair exampleTemplate 0 exampleToolCallMessage
    [{ id := "t1", function := { name := "f", arguments := "a" } }] rfl
    (by decide)

/-- C9: every non-sentinel event of one response shares a single envelope
computed once per response - identical `id`, `object`, `created`
timestamp, `model` (empty string when absent), `system_fingerprint`
(`null` when not truthy), `provider`, usage object and `citations` - and
each event carries exactly one entry in its `choices` field, the only part
that varies between events. -/
theorem shared_envelope (rsp : OpenAIChatCompleteResponse) (prov : String)
    (now : Nat) (c : StreamChunk)
    (hc : StreamItem.chunk c ∈ streamItems rsp prov now) :
    c.id = rsp.id
    ∧ c.object = "chat.completion.chunk"
    ∧ c.created = now
    ∧ c.model = rsp.model.getD ""
    ∧ c.system_fingerprint
        = (if truthyStr rsp.system_fingerprint then rsp.system_fingerprint
           else none)
    ∧ c.provider = prov
    ∧ c.usage = buildUsage rsp.usage prov
    ∧ c.citations = rsp.citations
    ∧ ∃ cd, c.choices = [cd] := by
  obtain ⟨cd, rfl⟩ := streamChunks_mkChunk rsp prov now c
    (mem_streamChunks_of_mem_streamItems rsp prov now c hc)
  refine ⟨rfl, rfl, rfl, ?_, rfl, rfl, rfl, rfl, ⟨cd, rfl⟩⟩
  show (if truthyStr rsp.model then rsp.model.getD "" else "")
    = rsp.model.getD ""
  rcases rsp.model with _ | s
  · rfl
  · by_cases hs : s = ""
    · subst hs; rfl
    · rw [if_pos (by simp [truthyStr, hs])]

/-- Witness for C9's theorem: on a fully populated response, the finish
event carries the whole shared envelope. -/
theorem shared_envelope_witness :
    (mkChunk (streamChunkTemplate exampleC9Response "p" 5)
        { index := 0, delta := emptyDelta, finish_reason := some "stop",
          groundingMetadata := none }).id = "i"
    ∧ (mkChunk (streamChunkTemplate exampleC9Response "p" 5)
        { index := 0, delta := emptyDelta, finish_reason := some "stop",
          groundingMetadata := none }).object = "chat.completion.chunk"
    ∧ (mkChunk (streamChunkTemplate exampleC9Response "p" 5)
        { index := 0, delta := emptyDelta, finish_reason := some "stop",
          groundingMetadata := none }).created = 5
    ∧ (mkChunk (streamChunkTemplate exampleC9Response "p" 5)
        { index := 0, delta := emptyDelta, finish_reason := some "stop",
          groundingMetadata := none }).model = "m"
    ∧ (mkChunk (streamChunkTemplate exampleC9Response "p" 5)
        { index := 0, delta := emptyDelta, finish_reason := some "stop",
          groundingMetadata := none }).system_fingerprint = some "fp"
    ∧ (mkChunk (streamChunkTemplate exampleC9Response "p" 5)
        { index := 0, delta := emptyDelta, finish_reason := some "stop",
          groundingMetadata := none }).provider = "p"
    ∧ (mkChunk (streamChunkTemplate exampleC9Response "p" 5)
        { index := 0, delta := emptyDelta, finish_reason := some "stop",
          groundingMetadata := none }).usage
        = buildUsage exampleC9Response.usage "p"
    ∧ (mkChunk (streamChunkTemplate exampleC9Response "p" 5)
        { index := 0, delta := emptyDelta, finish_reason := some "stop",
          groundingMetadata := none }).citations = some ["u"]
    ∧ ∃ cd, (mkChunk (streamChunkTemplate exampleC9Response "p" 5)
        { index := 0, delta := emptyDelta, finish_reason := some "stop",
          groundingMetadata := none }).choices = [cd] :=
  shared_envelope exampleC9Response "p" 5 _ (by decide)

/-- C10: the non-streaming passthrough delegates to the external error
transform exactly when the HTTP status is not 200 and the body carries an
`error` field, returning that transform's result unchanged; in every other
case it returns the input response unchanged. -/
theorem response_passthrough
    (errorTransform : ChatResponseOrError → String → ChatResponseOrError)
    (response : ChatResponseOrError) (responseStatus : Nat) :
    (responseStatus ≠ 200 → hasErrorField response = true →
      OpenAIChatCompleteResponseTransform errorTransform response
          responseStatus
        = errorTransform response OPEN_AI)
    ∧ (responseStatus = 200 ∨ hasErrorField response = false →
      OpenAIChatCompleteResponseTransform errorTransform response
          responseStatus
        = response) := by
  constructor
  · intro hs he
    unfold OpenAIChatCompleteResponseTransform
    rw [if_pos (by simp [hs, he])]
  · intro hor
    unfold OpenAIChatCompleteResponseTransform
    rcases hor with h | h
    · rw [if_neg (by simp [h])]
    · rw [if_neg (by simp [h])]

end Gateway
